import Mathlib

/-!
Shallow embedding of the Belugadex-core pricing / wire-encoding core:
`src/curve/base.rs` (SwapCurve, CurveType, pack/unpack, swap),
`src/instruction.rs` (SwapInstruction pack/unpack) and
`src/processor.rs` (instruction dispatch).

Bytes are modelled as `Nat` values (each `< 256` in every buffer the code
produces); `u64` / `u128` quantities are `Nat` with explicit overflow checks
where the source uses `checked_*` arithmetic.  Fallible Rust functions
returning `Result<_, ProgramError>` become `Except ProgramError _`; functions
returning `Option` stay `Option`.  Slice operations that can panic
(`array_ref![input, 0, 33]` on a short slice) are modelled by an outer
`Option` layer where `none` is the panic.
-/

set_option maxRecDepth 10000

/-- Modelled from the spec: `error.rs` is not under `src/`.  The spec's error
taxonomy distinguishes the "invalid instruction" signal
(`SwapError::InvalidInstruction`, converted into a custom `ProgramError`) from
the "invalid account data" signal (`ProgramError::InvalidAccountData`).  Only
these two error values are reachable from the embedded code, so the error
type has exactly these constructors. -/
inductive ProgramError where
  | invalidInstruction : ProgramError
  | invalidAccountData : ProgramError
deriving DecidableEq, Repr

/-- `n.to_le_bytes` for a `k`-byte integer: little-endian byte list. -/
def natToLEBytes : Nat → Nat → List Nat
  | 0, _ => []
  | k + 1, n => n % 256 :: natToLEBytes k (n / 256)

/-- `u64::from_le_bytes` generalised: little-endian value of a byte list. -/
def leBytesToNat : List Nat → Nat
  | [] => 0
  | b :: bs => b + 256 * leBytesToNat bs

/-- One more than the largest `u128` value: bound used by `checked_*` ops. -/
def U128_BOUND : Nat := 2 ^ 128

/-- `u128::checked_add`. -/
def checked_add (a b : Nat) : Option Nat :=
  if a + b < U128_BOUND then some (a + b) else none

/-- `u128::checked_sub` (on `Nat`, failure exactly when it would underflow). -/
def checked_sub (a b : Nat) : Option Nat :=
  if b ≤ a then some (a - b) else none

/-- Modelled from the spec: `calculator.rs` is not under `src/`.  Direction
selecting which reserve is source vs. destination. -/
inductive TradeDirection where
  | AtoB : TradeDirection
  | BtoA : TradeDirection
deriving DecidableEq, Repr

/-- Modelled from the spec: `calculator.rs` is not under `src/`.  Result of a
fee-free swap computation. -/
structure SwapWithoutFeesResult where
  source_amount_swapped : Nat
  destination_amount_swapped : Nat
deriving Repr

/-- Modelled from the spec: `calculator.rs` is not under `src/`.  The source
stores the calculator as `Arc<dyn CurveCalculator>`; the faithful shallow
embedding of a trait object is a record of its methods.  Only the methods the
embedded code calls are included: the fee-free swap and the encoding of the
calculator's parameters into its 32-byte region (the region is passed in and
the updated region returned, modelling the `&mut [u8]` argument). -/
structure CurveCalculator where
  swap_without_fees : Nat → Nat → Nat → TradeDirection → Option SwapWithoutFeesResult
  pack_into_slice : List Nat → List Nat

/-- Modelled from the spec: `fees.rs` is not under `src/`.  Four integer
ratio pairs (numerator / denominator): trading fee, owner trading fee, owner
withdrawal fee, host trading fee. -/
structure Fees where
  trade_fee_numerator : Nat
  trade_fee_denominator : Nat
  owner_trade_fee_numerator : Nat
  owner_trade_fee_denominator : Nat
  owner_withdraw_fee_numerator : Nat
  owner_withdraw_fee_denominator : Nat
  host_fee_numerator : Nat
  host_fee_denominator : Nat
deriving DecidableEq, Repr

namespace Fees

/-- Modelled from the spec: §4.1: each fee is `amount * numerator /
denominator` computed in a widened intermediate type (exact on `Nat`), with
floor rounding; "no value" when the ratio is inactive (denominator zero) and
on overflow of the `u128` fee result; zero when the ratio is active but the
quotient rounds to zero. -/
def calculate_fee (amount numerator denominator : Nat) : Option Nat :=
  if denominator = 0 then none
  else
    let fee := amount * numerator / denominator
    if fee < U128_BOUND then some fee else none

/-- Modelled from the spec: trading-fee ratio applied to `amount`. -/
def trading_fee (f : Fees) (amount : Nat) : Option Nat :=
  calculate_fee amount f.trade_fee_numerator f.trade_fee_denominator

/-- Modelled from the spec: owner-trading-fee ratio applied to `amount`. -/
def owner_trading_fee (f : Fees) (amount : Nat) : Option Nat :=
  calculate_fee amount f.owner_trade_fee_numerator f.owner_trade_fee_denominator

/-- Modelled from the spec: the Fees record is a fixed-width sequence of the
four ratio pairs, eight `u64` fields, little-endian: 64 bytes. -/
def LEN : Nat := 64

/-- Modelled from the spec: encoding of the Fees record, eight `u64` fields
little-endian in declaration order. -/
def pack (f : Fees) : List Nat :=
  natToLEBytes 8 f.trade_fee_numerator ++
  natToLEBytes 8 f.trade_fee_denominator ++
  natToLEBytes 8 f.owner_trade_fee_numerator ++
  natToLEBytes 8 f.owner_trade_fee_denominator ++
  natToLEBytes 8 f.owner_withdraw_fee_numerator ++
  natToLEBytes 8 f.owner_withdraw_fee_denominator ++
  natToLEBytes 8 f.host_fee_numerator ++
  natToLEBytes 8 f.host_fee_denominator

/-- Modelled from the spec: decoding of the Fees record from a 64-byte slice
(reads the eight little-endian `u64` fields; cannot fail on a well-sized
slice). -/
def unpack_from_slice (input : List Nat) : Except ProgramError Fees :=
  .ok
    { trade_fee_numerator := leBytesToNat (input.take 8)
      trade_fee_denominator := leBytesToNat ((input.drop 8).take 8)
      owner_trade_fee_numerator := leBytesToNat ((input.drop 16).take 8)
      owner_trade_fee_denominator := leBytesToNat ((input.drop 24).take 8)
      owner_withdraw_fee_numerator := leBytesToNat ((input.drop 32).take 8)
      owner_withdraw_fee_denominator := leBytesToNat ((input.drop 40).take 8)
      host_fee_numerator := leBytesToNat ((input.drop 48).take 8)
      host_fee_denominator := leBytesToNat ((input.drop 56).take 8) }

/-- `solana_program::program_pack::Pack::unpack_unchecked` for `Fees`:
rejects any input whose length differs from `Fees::LEN`, then delegates to
`unpack_from_slice`. -/
def unpack_unchecked (input : List Nat) : Except ProgramError Fees :=
  if input.length = LEN then unpack_from_slice input
  else .error .invalidAccountData

end Fees

/-- Modelled from the spec: `stable.rs` is not under `src/`.  The stable
calculator's single configuration parameter (the amplification of the 1:1
zone), a `u64`. -/
structure StableCurve where
  amp : Nat
deriving DecidableEq, Repr

namespace StableCurve

/-- Modelled from the spec: `stable.rs` is not under `src/`.  The spec gives
the stable variant's failure modes (overflow, or a trade that would drive a
reserve to zero or below) but deliberately leaves the invariant formula
variant-specific ("exact invariant formula is variant-specific"), so this
model prices exactly 1:1 inside the zone and fails when the destination
reserve would be emptied.  No claim below depends on the numeric output of
this function. -/
def swap_without_fees (_ : StableCurve) (source_amount source_reserve destination_reserve : Nat)
    (_ : TradeDirection) : Option SwapWithoutFeesResult :=
  if source_amount = 0 then none
  else if source_reserve = 0 then none
  else if destination_reserve ≤ source_amount then none
  else some { source_amount_swapped := source_amount,
              destination_amount_swapped := source_amount }

/-- Modelled from the spec: `stable.rs` is not under `src/`.  Decoding the
stable calculator's parameters from its 32-byte region: the `u64` `amp` is
read little-endian from the first 8 bytes; cannot fail. -/
def unpack_from_slice (input : List Nat) : Except ProgramError StableCurve :=
  .ok { amp := leBytesToNat (input.take 8) }

/-- Modelled from the spec: `stable.rs` is not under `src/`.  Encoding the
stable calculator's parameters into its 32-byte region: the `u64` `amp` is
written little-endian into the first 8 bytes, the rest of the region is left
as given (the callers pre-zero it). -/
def curve_pack_into_slice (c : StableCurve) (region : List Nat) : List Nat :=
  natToLEBytes 8 c.amp ++ region.drop 8

/-- The `Arc<dyn CurveCalculator>` view of a `StableCurve`: the record of the
methods the embedded code calls on the trait object. -/
def calculator (c : StableCurve) : CurveCalculator :=
  { swap_without_fees := c.swap_without_fees
    pack_into_slice := c.curve_pack_into_slice }

end StableCurve

/-- `CurveType` from `base.rs`: a one-variant `repr(C)` enum. -/
inductive CurveType where
  | Stable : CurveType
deriving DecidableEq, Repr

/-- `self.curve_type as u8` in `SwapCurve::pack_into_slice`: in the source
`CurveType` is a one-variant `repr(C)` enum with no explicit discriminant, so
`CurveType::Stable as u8` is `0`. -/
def CurveType.toU8 : CurveType → Nat
  | .Stable => 0

/-- `TryFrom<u8> for CurveType` in `base.rs`: `2 => Ok(Stable)`, anything
else `Err(ProgramError::InvalidAccountData)`. -/
def CurveType.try_from (curve_type : Nat) : Except ProgramError CurveType :=
  if curve_type = 2 then .ok .Stable
  else .error .invalidAccountData

/-- `SwapResult` from `base.rs`: all quantities `u128` (here `Nat`, bounded
by the checked arithmetic that produces them). -/
structure SwapResult where
  new_swap_source_amount : Nat
  new_swap_destination_amount : Nat
  source_amount_swapped : Nat
  destination_amount_swapped : Nat
  trade_fee : Nat
  owner_fee : Nat
deriving DecidableEq, Repr

/-- `SwapCurve` from `base.rs`: a curve-type tag paired with the held
calculator (the `Arc<dyn CurveCalculator>` embedded as a method record). -/
structure SwapCurve where
  curve_type : CurveType
  calculator : CurveCalculator

namespace SwapCurve

/-- `SwapCurve::swap` from `base.rs`, each `?` embedded as `Option.bind`:
compute the two fees, sum them (checked), subtract from the source amount
(checked), delegate to the calculator's fee-free swap, add the fees back into
the reported source amount swapped (checked), and derive both new reserves
with checked arithmetic. -/
def swap (c : SwapCurve) (source_amount swap_source_amount swap_destination_amount : Nat)
    (trade_direction : TradeDirection) (fees : Fees) : Option SwapResult :=
  (fees.trading_fee source_amount).bind fun trade_fee =>
  (fees.owner_trading_fee source_amount).bind fun owner_fee =>
  (checked_add trade_fee owner_fee).bind fun total_fees =>
  (checked_sub source_amount total_fees).bind fun source_amount_less_fees =>
  (c.calculator.swap_without_fees source_amount_less_fees swap_source_amount
      swap_destination_amount trade_direction).bind fun r =>
  (checked_add r.source_amount_swapped total_fees).bind fun source_amount_swapped =>
  (checked_add swap_source_amount source_amount_swapped).bind fun new_source =>
  (checked_sub swap_destination_amount r.destination_amount_swapped).bind fun new_destination =>
  some { new_swap_source_amount := new_source
         new_swap_destination_amount := new_destination
         source_amount_swapped := source_amount_swapped
         destination_amount_swapped := r.destination_amount_swapped
         trade_fee := trade_fee
         owner_fee := owner_fee }

/-- `SwapCurve::LEN = 33`: 1 discriminant byte + 32-byte calculator region. -/
def LEN : Nat := 33

/-- `SwapCurve::unpack_from_slice` from `base.rs`.  The source starts with
`array_ref![input, 0, 33]`, which panics when the slice is shorter than 33
bytes; the outer `Option` models that panic (`none`).  Otherwise byte 0 is
converted through `TryFrom<u8> for CurveType` and the matching calculator
decodes its parameters from bytes 1..33. -/
def unpack_from_slice (input : List Nat) : Option (Except ProgramError SwapCurve) :=
  match input with
  | [] => none
  | t :: rest =>
    if 32 ≤ rest.length then
      some (match CurveType.try_from t with
        | .error e => .error e
        | .ok ct =>
          match ct with
          | .Stable =>
            match StableCurve.unpack_from_slice (rest.take 32) with
            | .error e => .error e
            | .ok stable => .ok { curve_type := ct, calculator := stable.calculator })
    else none

/-- `SwapCurve::pack_into_slice` from `base.rs`.  The source starts with
`array_mut_ref![output, 0, 33]`, which panics when the output slice is
shorter than 33 bytes; the outer `Option` models that panic (`none`).
Otherwise byte 0 is `curve_type as u8` and the calculator writes its
parameters into bytes 1..33 (the rest of the output is untouched). -/
def pack_into_slice (c : SwapCurve) (output : List Nat) : Option (List Nat) :=
  if 33 ≤ output.length then
    some (c.curve_type.toU8 ::
      c.calculator.pack_into_slice ((output.drop 1).take 32) ++ output.drop 33)
  else none

/-- `solana_program::program_pack::Pack::unpack_unchecked` for `SwapCurve`:
rejects any input whose length differs from `SwapCurve::LEN = 33`, then
delegates to `unpack_from_slice` (whose panic branch is unreachable at
length 33, so the fallback error is dead code). -/
def unpack_unchecked (input : List Nat) : Except ProgramError SwapCurve :=
  if input.length = LEN then
    match unpack_from_slice input with
    | some r => r
    | none => .error .invalidAccountData
  else .error .invalidAccountData

/-- Packing into a fresh zeroed 33-byte buffer, as `SwapInstruction::pack`
and the `Clone`/`PartialEq` impls in `base.rs` do (`[0u8; Self::LEN]`); on a
33-byte buffer `pack_into_slice` cannot hit its panic branch, so the
fallback is dead code. -/
def packFixed (c : SwapCurve) : List Nat :=
  match c.pack_into_slice (List.replicate 33 0) with
  | some bs => bs
  | none => []

end SwapCurve

/-- `SwapInstruction` from `instruction.rs` (the four operation requests,
with their payload fields inlined). -/
inductive SwapInstruction where
  | Initialize : Fees → SwapCurve → SwapInstruction
  | Swap : Nat → Nat → SwapInstruction
  | DepositAllTokenTypes : Nat → Nat → Nat → SwapInstruction
  | WithdrawAllTokenTypes : Nat → Nat → Nat → SwapInstruction

namespace SwapInstruction

/-- `SwapInstruction::unpack_u64` from `instruction.rs`: requires at least 8
bytes, reads a little-endian `u64` from the first 8 and returns it with the
remainder; otherwise the invalid-instruction error. -/
def unpack_u64 (input : List Nat) : Except ProgramError (Nat × List Nat) :=
  if 8 ≤ input.length then
    .ok (leBytesToNat (input.take 8), input.drop 8)
  else .error .invalidInstruction

/-- `SwapInstruction::unpack` from `instruction.rs`: split off the tag byte
(empty input is the invalid-instruction error); tag 0 requires at least
`Fees::LEN` remaining bytes, decodes the Fees record from the first
`Fees::LEN` of them and the SwapCurve record (via the length-checked
`unpack_unchecked`) from all of the rest; tags 1-3 read their fixed
little-endian `u64` payloads via `unpack_u64`, ignoring any remainder;
any other tag is the invalid-instruction error. -/
def unpack (input : List Nat) : Except ProgramError SwapInstruction :=
  match input with
  | [] => .error .invalidInstruction
  | tag :: rest =>
    if tag = 0 then
      if Fees.LEN ≤ rest.length then
        match Fees.unpack_unchecked (rest.take Fees.LEN) with
        | .error e => .error e
        | .ok fees =>
          match SwapCurve.unpack_unchecked (rest.drop Fees.LEN) with
          | .error e => .error e
          | .ok swap_curve => .ok (.Initialize fees swap_curve)
      else .error .invalidInstruction
    else if tag = 1 then
      match unpack_u64 rest with
      | .error e => .error e
      | .ok (amount_in, rest) =>
        match unpack_u64 rest with
        | .error e => .error e
        | .ok (minimum_amount_out, _) => .ok (.Swap amount_in minimum_amount_out)
    else if tag = 2 then
      match unpack_u64 rest with
      | .error e => .error e
      | .ok (pool_token_amount, rest) =>
        match unpack_u64 rest with
        | .error e => .error e
        | .ok (maximum_token_a_amount, rest) =>
          match unpack_u64 rest with
          | .error e => .error e
          | .ok (maximum_token_b_amount, _) =>
            .ok (.DepositAllTokenTypes pool_token_amount maximum_token_a_amount
              maximum_token_b_amount)
    else if tag = 3 then
      match unpack_u64 rest with
      | .error e => .error e
      | .ok (pool_token_amount, rest) =>
        match unpack_u64 rest with
        | .error e => .error e
        | .ok (minimum_token_a_amount, rest) =>
          match unpack_u64 rest with
          | .error e => .error e
          | .ok (minimum_token_b_amount, _) =>
            .ok (.WithdrawAllTokenTypes pool_token_amount minimum_token_a_amount
              minimum_token_b_amount)
    else .error .invalidInstruction

/-- `SwapInstruction::pack` from `instruction.rs`: the tag byte followed by
the record's payload; Initialize packs the Fees record into a zeroed
`Fees::LEN` buffer and the SwapCurve record into a zeroed 33-byte buffer,
tags 1-3 append their `u64` fields little-endian. -/
def pack : SwapInstruction → List Nat
  | .Initialize fees swap_curve => 0 :: fees.pack ++ swap_curve.packFixed
  | .Swap amount_in minimum_amount_out =>
      1 :: natToLEBytes 8 amount_in ++ natToLEBytes 8 minimum_amount_out
  | .DepositAllTokenTypes pool_token_amount maximum_token_a_amount maximum_token_b_amount =>
      2 :: natToLEBytes 8 pool_token_amount ++ natToLEBytes 8 maximum_token_a_amount ++
        natToLEBytes 8 maximum_token_b_amount
  | .WithdrawAllTokenTypes pool_token_amount minimum_token_a_amount minimum_token_b_amount =>
      3 :: natToLEBytes 8 pool_token_amount ++ natToLEBytes 8 minimum_token_a_amount ++
        natToLEBytes 8 minimum_token_b_amount

end SwapInstruction

namespace Processor

/-- `Processor::process_initialize` from `processor.rs`: returns `Ok(())`
unconditionally (account arguments are ignored by the source body and
omitted here). -/
def process_initialize (_fees : Fees) (_swap_curve : SwapCurve) : Except ProgramError Unit :=
  .ok ()

/-- `Processor::process_swap` from `processor.rs`: returns `Ok(())`
unconditionally. -/
def process_swap (_amount_in _minimum_amount_out : Nat) : Except ProgramError Unit :=
  .ok ()

/-- `Processor::process_deposit_all_token_types` from `processor.rs`:
returns `Ok(())` unconditionally. -/
def process_deposit_all_token_types
    (_pool_token_amount _maximum_token_a_amount _maximum_token_b_amount : Nat) :
    Except ProgramError Unit :=
  .ok ()

/-- `Processor::process_withdraw_all_token_types` from `processor.rs`:
returns `Ok(())` unconditionally. -/
def process_withdraw_all_token_types
    (_pool_token_amount _minimum_token_a_amount _minimum_token_b_amount : Nat) :
    Except ProgramError Unit :=
  .ok ()

/-- `Processor::process_with_constraints` from `processor.rs`: unpack the
instruction bytes (`?` propagates the unpack error) and route the decoded
instruction to the handler matching its variant.  The `program_id`,
`accounts` and `swap_constraints` arguments are passed through unread by the
dispatch itself and ignored by every handler body, so they are omitted. -/
def process_with_constraints (input : List Nat) : Except ProgramError Unit :=
  match SwapInstruction.unpack input with
  | .error e => .error e
  | .ok (.Initialize fees swap_curve) => process_initialize fees swap_curve
  | .ok (.Swap amount_in minimum_amount_out) => process_swap amount_in minimum_amount_out
  | .ok (.DepositAllTokenTypes a b c) => process_deposit_all_token_types a b c
  | .ok (.WithdrawAllTokenTypes a b c) => process_withdraw_all_token_types a b c

end Processor

/-! Concrete values used by the witness theorems. -/

/-- The all-zero Fees record (every ratio inactive), a valid in-memory value. -/
def feesAllZero : Fees := ⟨0, 0, 0, 0, 0, 0, 0, 0⟩

/-- Fees whose trading and owner-trading ratios are active with rate zero
(numerator 0, denominator 1). -/
def feesZeroRate : Fees := ⟨0, 1, 0, 1, 0, 1, 0, 1⟩

/-- Fees whose trading ratio is 2/1 (a 200% fee), used to drive the computed
fee total above the source amount. -/
def feesDouble : Fees := ⟨2, 1, 0, 1, 0, 1, 0, 1⟩

/-- A SwapCurve holding the Stable calculator with `amp = 1`, as built by
decoding a curve record or by the builders. -/
def stableSwapCurveOne : SwapCurve :=
  { curve_type := .Stable, calculator := (StableCurve.mk 1).calculator }

/-- A calculator that swaps one token for one token, used to instantiate the
calculator-generic swap theorems at a concrete value. -/
def oneForOneCalculator : CurveCalculator :=
  { swap_without_fees := fun a _ _ _ => some ⟨a, a⟩
    pack_into_slice := fun region => region }

/-- A SwapCurve holding the one-for-one calculator. -/
def oneForOneCurve : SwapCurve :=
  { curve_type := .Stable, calculator := oneForOneCalculator }

/-- The result of the concrete successful swap used by the witnesses:
`oneForOneCurve.swap 100 1000 1000 .AtoB feesZeroRate`. -/
def swapResultEx : SwapResult := ⟨1100, 900, 100, 100, 0, 0⟩

/-! Helper lemmas about the checked arithmetic and the swap pipeline. -/

/-- Success characterisation of `checked_add`. -/
theorem checked_add_eq_some {a b c : Nat} :
    checked_add a b = some c ↔ a + b < U128_BOUND ∧ c = a + b := by
  unfold checked_add
  split <;> simp_all [eq_comm]

/-- Success characterisation of `checked_sub`. -/
theorem checked_sub_eq_some {a b c : Nat} :
    checked_sub a b = some c ↔ b ≤ a ∧ c = a - b := by
  unfold checked_sub
  split <;> simp_all [eq_comm]

/-- Anatomy of a successful `SwapCurve::swap`: names every intermediate value
of the pipeline and how the fields of the returned record are built from
them. -/
theorem swap_some_elim (c : SwapCurve) (sa ssa sda : Nat) (dir : TradeDirection)
    (fees : Fees) (r : SwapResult)
    (h : c.swap sa ssa sda dir fees = some r) :
    ∃ trade_fee owner_fee total_fees calcRes,
      fees.trading_fee sa = some trade_fee ∧
      fees.owner_trading_fee sa = some owner_fee ∧
      total_fees = trade_fee + owner_fee ∧
      total_fees ≤ sa ∧
      c.calculator.swap_without_fees (sa - total_fees) ssa sda dir = some calcRes ∧
      r.trade_fee = trade_fee ∧
      r.owner_fee = owner_fee ∧
      r.source_amount_swapped = calcRes.source_amount_swapped + total_fees ∧
      r.destination_amount_swapped = calcRes.destination_amount_swapped ∧
      r.destination_amount_swapped ≤ sda ∧
      r.new_swap_source_amount = ssa + r.source_amount_swapped ∧
      r.new_swap_destination_amount = sda - r.destination_amount_swapped := by
  simp only [SwapCurve.swap, Option.bind_eq_some] at h
  obtain ⟨tf, h1, of, h2, tot, h3, less, h4, cr, h5, sas, h6, ns, h7, nd, h8, h9⟩ := h
  rw [checked_add_eq_some] at h3 h6 h7
  rw [checked_sub_eq_some] at h4 h8
  obtain ⟨-, rfl⟩ := h3
  obtain ⟨hle, rfl⟩ := h4
  obtain ⟨-, rfl⟩ := h6
  obtain ⟨-, rfl⟩ := h7
  obtain ⟨hle2, rfl⟩ := h8
  cases h9
  exact ⟨tf, of, tf + of, cr, h1, h2, rfl, hle, h5, rfl, rfl, rfl, rfl, hle2, rfl, rfl⟩

/-- Decoding a buffer whose tag is `1` and whose payload is long enough
yields the `Swap` request read from the first 16 payload bytes. -/
theorem unpack_cons_one (rest : List Nat) (h : 16 ≤ rest.length) :
    SwapInstruction.unpack (1 :: rest) =
      .ok (.Swap (leBytesToNat (rest.take 8)) (leBytesToNat ((rest.drop 8).take 8))) := by
  have h8 : 8 ≤ rest.length := by omega
  have h8' : 8 ≤ (rest.drop 8).length := by simp [List.length_drop]; omega
  simp only [SwapInstruction.unpack, SwapInstruction.unpack_u64, if_pos h8, if_pos h8']
  norm_num

/-- Decoding a buffer whose tag is `2` and whose payload is long enough
yields the `DepositAllTokenTypes` request read from the first 24 payload
bytes. -/
theorem unpack_cons_two (rest : List Nat) (h : 24 ≤ rest.length) :
    SwapInstruction.unpack (2 :: rest) =
      .ok (.DepositAllTokenTypes (leBytesToNat (rest.take 8))
        (leBytesToNat ((rest.drop 8).take 8)) (leBytesToNat ((rest.drop 16).take 8))) := by
  have h8 : 8 ≤ rest.length := by omega
  have h8' : 8 ≤ (rest.drop 8).length := by simp [List.length_drop]; omega
  have h8'' : 8 ≤ ((rest.drop 8).drop 8).length := by simp [List.length_drop]; omega
  simp only [SwapInstruction.unpack, SwapInstruction.unpack_u64, if_pos h8, if_pos h8', if_pos h8'']
  norm_num [List.drop_drop]

/-- Decoding a buffer whose tag is `3` and whose payload is long enough
yields the `WithdrawAllTokenTypes` request read from the first 24 payload
bytes. -/
theorem unpack_cons_three (rest : List Nat) (h : 24 ≤ rest.length) :
    SwapInstruction.unpack (3 :: rest) =
      .ok (.WithdrawAllTokenTypes (leBytesToNat (rest.take 8))
        (leBytesToNat ((rest.drop 8).take 8)) (leBytesToNat ((rest.drop 16).take 8))) := by
  have h8 : 8 ≤ rest.length := by omega
  have h8' : 8 ≤ (rest.drop 8).length := by simp [List.length_drop]; omega
  have h8'' : 8 ≤ ((rest.drop 8).drop 8).length := by simp [List.length_drop]; omega
  simp only [SwapInstruction.unpack, SwapInstruction.unpack_u64, if_pos h8, if_pos h8', if_pos h8'']
  norm_num [List.drop_drop]

/-- Claim C1: evaluation at the failing input.  Packing an `Initialize`
request writes `CurveType::Stable as u8 = 0` as the curve discriminant while
`TryFrom<u8> for CurveType` accepts only `2`, so decode(encode(v)) fails with
the invalid-account-data error instead of returning `v`: the round-trip
claim fails for every `Initialize` (and every packed `SwapCurve`).  The
tag-1 concrete scenario of the claim does hold: packing `Swap{1000, 1}`
yields the canonical 17-byte buffer and unpacking it returns the value. -/
theorem c1_roundtrip_discriminant_bug :
    SwapInstruction.unpack (SwapInstruction.pack (.Initialize feesAllZero stableSwapCurveOne)) =
      .error .invalidAccountData ∧
    SwapInstruction.pack (.Swap 1000 1) =
      [1, 232, 3, 0, 0, 0, 0, 0, 0, 1, 0, 0, 0, 0, 0, 0, 0] ∧
    (SwapInstruction.pack (.Swap 1000 1)).length = 17 ∧
    SwapInstruction.unpack (SwapInstruction.pack (.Swap 1000 1)) = .ok (.Swap 1000 1) :=
  ⟨rfl, by decide, by decide, rfl⟩

/-- Claim C2: evaluation at the failing input.  Decoding does yield the
Stable variant for discriminant byte 2 and the invalid-account-data error
for other discriminants (0 and 255 shown), but encoding a SwapCurve holding
the Stable calculator writes discriminant byte 0 (`CurveType::Stable as u8`
in a one-variant `repr(C)` enum), not 2, so the emitted tag does not match
the held calculator's variant and re-decoding the emitted record fails. -/
theorem c2_stable_discriminant_mismatch :
    SwapCurve.packFixed stableSwapCurveOne = 0 :: (natToLEBytes 8 1 ++ List.replicate 24 0) ∧
    (0 : Nat) ≠ 2 ∧
    (∃ sc, SwapCurve.unpack_unchecked (2 :: List.replicate 32 0) = .ok sc ∧
      sc.curve_type = .Stable) ∧
    SwapCurve.unpack_unchecked (0 :: List.replicate 32 0) = .error .invalidAccountData ∧
    SwapCurve.unpack_unchecked (255 :: List.replicate 32 0) = .error .invalidAccountData ∧
    SwapCurve.unpack_unchecked (SwapCurve.packFixed stableSwapCurveOne) =
      .error .invalidAccountData :=
  ⟨rfl, by decide,
    ⟨{ curve_type := .Stable, calculator := (StableCurve.mk 0).calculator }, rfl, rfl⟩,
    rfl, rfl, rfl⟩

/-- Claim C3: conservation.  Every successful `SwapCurve::swap` returns
reserves satisfying `new_swap_source_amount = swap_source_amount +
source_amount_swapped` and `new_swap_destination_amount =
swap_destination_amount - destination_amount_swapped`, exactly (the
subtraction does not truncate: `destination_amount_swapped` is at most the
old destination reserve). -/
theorem c3_swap_conservation (c : SwapCurve)
    (source_amount swap_source_amount swap_destination_amount : Nat)
    (dir : TradeDirection) (fees : Fees) (r : SwapResult)
    (h : c.swap source_amount swap_source_amount swap_destination_amount dir fees = some r) :
    r.new_swap_source_amount = swap_source_amount + r.source_amount_swapped ∧
    r.destination_amount_swapped ≤ swap_destination_amount ∧
    r.new_swap_destination_amount = swap_destination_amount - r.destination_amount_swapped := by
  obtain ⟨tf, of, tot, cr, -, -, -, -, -, -, -, -, -, hdle, hns, hnd⟩ :=
    swap_some_elim c source_amount swap_source_amount swap_destination_amount dir fees r h
  exact ⟨hns, hdle, hnd⟩

/-- Witness for C3 at a concrete successful swap. -/
theorem c3_swap_conservation_witness :
    oneForOneCurve.swap 100 1000 1000 .AtoB feesZeroRate = some swapResultEx ∧
    (swapResultEx.new_swap_source_amount = 1000 + swapResultEx.source_amount_swapped ∧
     swapResultEx.destination_amount_swapped ≤ 1000 ∧
     swapResultEx.new_swap_destination_amount = 1000 - swapResultEx.destination_amount_swapped) :=
  ⟨rfl, c3_swap_conservation oneForOneCurve 100 1000 1000 .AtoB feesZeroRate swapResultEx rfl⟩

/-- Claim C4: fee bound.  On every successful `SwapCurve::swap` the returned
`trade_fee + owner_fee` is at most `source_amount`; and whenever the trading
fee plus owner trading fee computed from `source_amount` exceeds
`source_amount`, `swap` returns `none`. -/
theorem c4_swap_fee_bound (c : SwapCurve) (source_amount ssa sda : Nat)
    (dir : TradeDirection) (fees : Fees) :
    (∀ r, c.swap source_amount ssa sda dir fees = some r →
      r.trade_fee + r.owner_fee ≤ source_amount) ∧
    (∀ trade_fee owner_fee, fees.trading_fee source_amount = some trade_fee →
      fees.owner_trading_fee source_amount = some owner_fee →
      source_amount < trade_fee + owner_fee →
      c.swap source_amount ssa sda dir fees = none) := by
  constructor
  · intro r h
    obtain ⟨tf, of, tot, cr, h1, h2, rfl, hle, -, htf, hof, -, -, -, -, -⟩ :=
      swap_some_elim c source_amount ssa sda dir fees r h
    rw [htf, hof]
    exact hle
  · intro tf of h1 h2 h3
    simp only [SwapCurve.swap, h1, h2, Option.some_bind, checked_add, checked_sub]
    split
    · simp [Nat.not_le.mpr h3]
    · rfl

/-- Witness for C4: a successful swap whose fees respect the bound, and a
swap rejected because its 200% trading fee exceeds the input. -/
theorem c4_swap_fee_bound_witness :
    oneForOneCurve.swap 100 1000 1000 .AtoB feesZeroRate = some swapResultEx ∧
    swapResultEx.trade_fee + swapResultEx.owner_fee ≤ 100 ∧
    oneForOneCurve.swap 10 1000 1000 .AtoB feesDouble = none :=
  ⟨rfl, (c4_swap_fee_bound oneForOneCurve 100 1000 1000 .AtoB feesZeroRate).1 swapResultEx rfl,
    (c4_swap_fee_bound oneForOneCurve 10 1000 1000 .AtoB feesDouble).2 20 0 rfl rfl (by decide)⟩

/-- Claim C6: fee re-addition.  On every successful `SwapCurve::swap` the
reported `source_amount_swapped` is the calculator's fee-free source amount
plus the total of the trading fee and the owner fee (the returned fee
fields), while `destination_amount_swapped` is exactly what the held
calculator's `swap_without_fees` produced, with no further adjustment. -/
theorem c6_swap_fee_readdition (c : SwapCurve) (source_amount ssa sda : Nat)
    (dir : TradeDirection) (fees : Fees) (r : SwapResult)
    (h : c.swap source_amount ssa sda dir fees = some r) :
    ∃ trade_fee owner_fee calcRes,
      fees.trading_fee source_amount = some trade_fee ∧
      fees.owner_trading_fee source_amount = some owner_fee ∧
      r.trade_fee = trade_fee ∧
      r.owner_fee = owner_fee ∧
      c.calculator.swap_without_fees (source_amount - (trade_fee + owner_fee)) ssa sda dir =
        some calcRes ∧
      r.source_amount_swapped = calcRes.source_amount_swapped + (trade_fee + owner_fee) ∧
      r.destination_amount_swapped = calcRes.destination_amount_swapped := by
  obtain ⟨tf, of, tot, cr, h1, h2, rfl, -, hcalc, htf, hof, hsas, hdas, -, -, -⟩ :=
    swap_some_elim c source_amount ssa sda dir fees r h
  exact ⟨tf, of, cr, h1, h2, htf, hof, hcalc, hsas, hdas⟩

/-- Witness for C6 at a concrete successful swap. -/
theorem c6_swap_fee_readdition_witness :
    oneForOneCurve.swap 100 1000 1000 .AtoB feesZeroRate = some swapResultEx ∧
    (∃ trade_fee owner_fee calcRes,
      feesZeroRate.trading_fee 100 = some trade_fee ∧
      feesZeroRate.owner_trading_fee 100 = some owner_fee ∧
      swapResultEx.trade_fee = trade_fee ∧
      swapResultEx.owner_fee = owner_fee ∧
      oneForOneCurve.calculator.swap_without_fees (100 - (trade_fee + owner_fee)) 1000 1000 .AtoB =
        some calcRes ∧
      swapResultEx.source_amount_swapped = calcRes.source_amount_swapped + (trade_fee + owner_fee) ∧
      swapResultEx.destination_amount_swapped = calcRes.destination_amount_swapped) :=
  ⟨rfl, c6_swap_fee_readdition oneForOneCurve 100 1000 1000 .AtoB feesZeroRate swapResultEx rfl⟩

/-- Claim C7: determinism.  `SwapCurve::swap` is a pure function of its
explicit inputs: two calls with identical curve, amounts, direction and fees
return identical results (the same `SwapResult` on success, identically the
failure value otherwise), with no dependence on prior calls. -/
theorem c7_swap_deterministic (c₁ c₂ : SwapCurve) (sa₁ sa₂ ssa₁ ssa₂ sda₁ sda₂ : Nat)
    (dir₁ dir₂ : TradeDirection) (fees₁ fees₂ : Fees)
    (hc : c₁ = c₂) (hsa : sa₁ = sa₂) (hssa : ssa₁ = ssa₂) (hsda : sda₁ = sda₂)
    (hdir : dir₁ = dir₂) (hfees : fees₁ = fees₂) :
    c₁.swap sa₁ ssa₁ sda₁ dir₁ fees₁ = c₂.swap sa₂ ssa₂ sda₂ dir₂ fees₂ := by
  subst hc hsa hssa hsda hdir hfees
  rfl

/-- Witness for C7 at concrete inputs. -/
theorem c7_swap_deterministic_witness :
    oneForOneCurve.swap 100 1000 1000 .AtoB feesZeroRate =
      oneForOneCurve.swap 100 1000 1000 .AtoB feesZeroRate :=
  c7_swap_deterministic oneForOneCurve oneForOneCurve 100 100 1000 1000 1000 1000 .AtoB .AtoB
    feesZeroRate feesZeroRate rfl rfl rfl rfl rfl rfl

/-- Claim C5 counterexample: a tag-0 buffer whose payload is shorter than
the tag's fixed payload (64 Fees bytes present, the 33 SwapCurve bytes
missing) fails with the invalid-account-data error, not the
invalid-instruction error the claim requires for every truncated payload. -/
theorem c5_tag0_truncated_error_kind :
    SwapInstruction.unpack (0 :: List.replicate 64 0) = .error .invalidAccountData ∧
    ProgramError.invalidAccountData ≠ ProgramError.invalidInstruction ∧
    (List.replicate 64 (0 : Nat)).length < Fees.LEN + SwapCurve.LEN :=
  ⟨rfl, by decide, by decide⟩

/-- Helper: `unpack_u64` fails with the invalid-instruction error on fewer
than 8 bytes. -/
theorem unpack_u64_err (input : List Nat) (h : input.length < 8) :
    SwapInstruction.unpack_u64 input = .error .invalidInstruction := by
  simp [SwapInstruction.unpack_u64, Nat.not_le.mpr h]

/-- Helper: `unpack_u64` on at least 8 bytes reads the first 8 little-endian
and returns the rest. -/
theorem unpack_u64_ok (input : List Nat) (h : 8 ≤ input.length) :
    SwapInstruction.unpack_u64 input = .ok (leBytesToNat (input.take 8), input.drop 8) := by
  simp [SwapInstruction.unpack_u64, if_pos h]

/-- Claim C5 as amended: `SwapInstruction::unpack` is total; the empty
buffer, an unknown tag (any tag ≥ 4, in particular the single byte 0xFF)
and truncated fixed payloads for tags 1-3 all fail with the
invalid-instruction error; for tag 0 a payload shorter than `Fees::LEN`
fails with the invalid-instruction error, while a payload with the Fees
region present but a remainder whose length differs from `SwapCurve::LEN`
fails with the invalid-account-data error; every input produces either a
decoded instruction or one of these two error signals (never a panic). -/
theorem c5_unpack_total_error_taxonomy :
    SwapInstruction.unpack [] = .error .invalidInstruction ∧
    SwapInstruction.unpack [255] = .error .invalidInstruction ∧
    (∀ tag rest, 4 ≤ tag → SwapInstruction.unpack (tag :: rest) = .error .invalidInstruction) ∧
    (∀ rest, rest.length < 16 → SwapInstruction.unpack (1 :: rest) = .error .invalidInstruction) ∧
    (∀ rest, rest.length < 24 → SwapInstruction.unpack (2 :: rest) = .error .invalidInstruction) ∧
    (∀ rest, rest.length < 24 → SwapInstruction.unpack (3 :: rest) = .error .invalidInstruction) ∧
    (∀ rest, rest.length < Fees.LEN → SwapInstruction.unpack (0 :: rest) = .error .invalidInstruction) ∧
    (∀ rest, Fees.LEN ≤ rest.length → rest.length ≠ Fees.LEN + SwapCurve.LEN →
      SwapInstruction.unpack (0 :: rest) = .error .invalidAccountData) ∧
    (∀ input, (∃ i, SwapInstruction.unpack input = .ok i) ∨
      SwapInstruction.unpack input = .error .invalidInstruction ∨
      SwapInstruction.unpack input = .error .invalidAccountData) := by
  refine ⟨rfl, rfl, ?_, ?_, ?_, ?_, ?_, ?_, ?_⟩
  · intro tag rest h
    simp only [SwapInstruction.unpack]
    rw [if_neg (by omega), if_neg (by omega), if_neg (by omega), if_neg (by omega)]
  · intro rest h
    by_cases h8 : 8 ≤ rest.length
    · have h2 := unpack_u64_err (rest.drop 8) (by simp [List.length_drop]; omega)
      simp only [SwapInstruction.unpack, unpack_u64_ok rest h8, h2]
      norm_num
    · simp only [SwapInstruction.unpack, unpack_u64_err rest (by omega)]
      norm_num
  · intro rest h
    by_cases h8 : 8 ≤ rest.length
    · by_cases h16 : 8 ≤ (rest.drop 8).length
      · have h3 := unpack_u64_err ((rest.drop 8).drop 8) (by simp [List.length_drop]; omega)
        simp only [SwapInstruction.unpack, unpack_u64_ok rest h8,
          unpack_u64_ok (rest.drop 8) h16, h3]
        norm_num
      · simp only [SwapInstruction.unpack, unpack_u64_ok rest h8,
          unpack_u64_err (rest.drop 8) (by omega)]
        norm_num
    · simp only [SwapInstruction.unpack, unpack_u64_err rest (by omega)]
      norm_num
  · intro rest h
    by_cases h8 : 8 ≤ rest.length
    · by_cases h16 : 8 ≤ (rest.drop 8).length
      · have h3 := unpack_u64_err ((rest.drop 8).drop 8) (by simp [List.length_drop]; omega)
        simp only [SwapInstruction.unpack, unpack_u64_ok rest h8,
          unpack_u64_ok (rest.drop 8) h16, h3]
        norm_num
      · simp only [SwapInstruction.unpack, unpack_u64_ok rest h8,
          unpack_u64_err (rest.drop 8) (by omega)]
        norm_num
    · simp only [SwapInstruction.unpack, unpack_u64_err rest (by omega)]
      norm_num
  · intro rest h
    simp only [SwapInstruction.unpack, if_pos rfl, if_neg (Nat.not_le.mpr h)]
    simp
  · intro rest h1 h2
    have hfe : (rest.take Fees.LEN).length = Fees.LEN := by
      simp [List.length_take]
      omega
    have hswap : SwapCurve.unpack_unchecked (rest.drop Fees.LEN) = .error .invalidAccountData := by
      unfold SwapCurve.unpack_unchecked
      rw [if_neg]
      simp only [List.length_drop]
      simp only [Fees.LEN, SwapCurve.LEN] at h1 h2 ⊢
      omega
    simp only [SwapInstruction.unpack, if_pos rfl, if_pos h1, Fees.unpack_unchecked,
      if_pos hfe, Fees.unpack_from_slice, hswap]
    simp
  · intro input
    rcases h : SwapInstruction.unpack input with e | i
    · cases e
      · exact Or.inr (Or.inl rfl)
      · exact Or.inr (Or.inr rfl)
    · exact Or.inl ⟨i, rfl⟩

/-- Witness for the amended C5, touching each hypothesis-bearing part at a
concrete input. -/
theorem c5_unpack_total_error_taxonomy_witness :
    SwapInstruction.unpack [7, 1, 2] = .error .invalidInstruction ∧
    SwapInstruction.unpack [1, 9] = .error .invalidInstruction ∧
    SwapInstruction.unpack [2, 9] = .error .invalidInstruction ∧
    SwapInstruction.unpack [3, 9] = .error .invalidInstruction ∧
    SwapInstruction.unpack [0, 9] = .error .invalidInstruction ∧
    SwapInstruction.unpack (0 :: List.replicate 70 0) = .error .invalidAccountData :=
  ⟨c5_unpack_total_error_taxonomy.2.2.1 7 [1, 2] (by decide),
    c5_unpack_total_error_taxonomy.2.2.2.1 [9] (by decide),
    c5_unpack_total_error_taxonomy.2.2.2.2.1 [9] (by decide),
    c5_unpack_total_error_taxonomy.2.2.2.2.2.1 [9] (by decide),
    c5_unpack_total_error_taxonomy.2.2.2.2.2.2.1 [9] (by decide),
    c5_unpack_total_error_taxonomy.2.2.2.2.2.2.2.1 (List.replicate 70 0) (by decide) (by decide)⟩

/-- Claim C8: for tags 1-3, decoding succeeds on any buffer whose payload is
at least the tag's required length (16 bytes for Swap, 24 for Deposit and
Withdraw), the decoded fields are read from the leading payload bytes only,
trailing bytes are ignored (appending extra bytes does not change the
result), and decode is therefore not injective on byte buffers. -/
theorem c8_unpack_ignores_trailing :
    (∀ rest, 16 ≤ rest.length → SwapInstruction.unpack (1 :: rest) =
      .ok (.Swap (leBytesToNat (rest.take 8)) (leBytesToNat ((rest.drop 8).take 8)))) ∧
    (∀ rest, 24 ≤ rest.length → SwapInstruction.unpack (2 :: rest) =
      .ok (.DepositAllTokenTypes (leBytesToNat (rest.take 8))
        (leBytesToNat ((rest.drop 8).take 8)) (leBytesToNat ((rest.drop 16).take 8)))) ∧
    (∀ rest, 24 ≤ rest.length → SwapInstruction.unpack (3 :: rest) =
      .ok (.WithdrawAllTokenTypes (leBytesToNat (rest.take 8))
        (leBytesToNat ((rest.drop 8).take 8)) (leBytesToNat ((rest.drop 16).take 8)))) ∧
    (∀ rest extra, 16 ≤ rest.length →
      SwapInstruction.unpack (1 :: (rest ++ extra)) = SwapInstruction.unpack (1 :: rest)) ∧
    (∀ rest extra, 24 ≤ rest.length →
      SwapInstruction.unpack (2 :: (rest ++ extra)) = SwapInstruction.unpack (2 :: rest)) ∧
    (∀ rest extra, 24 ≤ rest.length →
      SwapInstruction.unpack (3 :: (rest ++ extra)) = SwapInstruction.unpack (3 :: rest)) ∧
    (SwapInstruction.unpack (1 :: List.replicate 16 0) =
      SwapInstruction.unpack (1 :: List.replicate 17 0) ∧
      (1 :: List.replicate 16 (0 : Nat)) ≠ 1 :: List.replicate 17 0) := by
  have e1 : ∀ (rest extra : List Nat), 8 ≤ rest.length →
      (rest ++ extra).take 8 = rest.take 8 :=
    fun rest extra h => List.take_append_of_le_length h
  have e3 : ∀ (rest extra : List Nat), 16 ≤ rest.length →
      ((rest ++ extra).drop 8).take 8 = (rest.drop 8).take 8 := by
    intro rest extra h
    rw [List.drop_append_of_le_length (by omega),
      List.take_append_of_le_length (by simp [List.length_drop]; omega)]
  have e4 : ∀ (rest extra : List Nat), 24 ≤ rest.length →
      ((rest ++ extra).drop 16).take 8 = (rest.drop 16).take 8 := by
    intro rest extra h
    rw [List.drop_append_of_le_length (by omega),
      List.take_append_of_le_length (by simp [List.length_drop]; omega)]
  refine ⟨unpack_cons_one, unpack_cons_two, unpack_cons_three, ?_, ?_, ?_, rfl, by decide⟩
  · intro rest extra h
    rw [unpack_cons_one rest h, unpack_cons_one (rest ++ extra) (by simp; omega),
      e1 rest extra (by omega), e3 rest extra h]
  · intro rest extra h
    rw [unpack_cons_two rest h, unpack_cons_two (rest ++ extra) (by simp; omega),
      e1 rest extra (by omega), e3 rest extra (by omega), e4 rest extra h]
  · intro rest extra h
    rw [unpack_cons_three rest h, unpack_cons_three (rest ++ extra) (by simp; omega),
      e1 rest extra (by omega), e3 rest extra (by omega), e4 rest extra h]

/-- Witness for C8 at concrete buffers. -/
theorem c8_unpack_ignores_trailing_witness :
    SwapInstruction.unpack (1 :: List.replicate 16 0) = .ok (.Swap 0 0) ∧
    SwapInstruction.unpack (2 :: List.replicate 24 0) = .ok (.DepositAllTokenTypes 0 0 0) ∧
    SwapInstruction.unpack (3 :: List.replicate 24 0) = .ok (.WithdrawAllTokenTypes 0 0 0) ∧
    SwapInstruction.unpack (1 :: (List.replicate 16 0 ++ [7, 7])) =
      SwapInstruction.unpack (1 :: List.replicate 16 0) := by
  refine ⟨?_, ?_, ?_, c8_unpack_ignores_trailing.2.2.2.1 (List.replicate 16 0) [7, 7] (by decide)⟩
  · have h := c8_unpack_ignores_trailing.1 (List.replicate 16 0) (by decide)
    rw [h]
    rfl
  · have h := c8_unpack_ignores_trailing.2.1 (List.replicate 24 0) (by decide)
    rw [h]
    rfl
  · have h := c8_unpack_ignores_trailing.2.2.1 (List.replicate 24 0) (by decide)
    rw [h]
    rfl

/-- Claim C9: `SwapCurve::unpack_from_slice` and `pack_into_slice` index a
fixed 33-byte window unconditionally: on a slice shorter than 33 bytes the
`array_ref!` bound fails (the panic, modelled as `none`), and on 33 or more
bytes both succeed; the length-checked `Pack` entry point
(`unpack_unchecked`) rejects any input whose length differs from 33 with the
invalid-account-data error and otherwise returns exactly what
`unpack_from_slice` computes, making decoding total. -/
theorem c9_fixed_window_panic_model :
    (∀ input, input.length < 33 → SwapCurve.unpack_from_slice input = none) ∧
    (∀ (c : SwapCurve) output, output.length < 33 → c.pack_into_slice output = none) ∧
    (∀ input, 33 ≤ input.length → ∃ r, SwapCurve.unpack_from_slice input = some r) ∧
    (∀ (c : SwapCurve) output, 33 ≤ output.length → ∃ bs, c.pack_into_slice output = some bs) ∧
    (∀ input, input.length ≠ 33 →
      SwapCurve.unpack_unchecked input = .error .invalidAccountData) ∧
    (∀ input r, SwapCurve.unpack_from_slice input = some r → input.length = 33 →
      SwapCurve.unpack_unchecked input = r) := by
  refine ⟨?_, ?_, ?_, ?_, ?_, ?_⟩
  · intro input h
    match input with
    | [] => rfl
    | t :: rest =>
      simp only [SwapCurve.unpack_from_slice]
      rw [if_neg]
      simp only [List.length_cons] at h
      omega
  · intro c output h
    simp only [SwapCurve.pack_into_slice]
    rw [if_neg]
    omega
  · intro input h
    match input with
    | [] => simp at h
    | t :: rest =>
      simp only [SwapCurve.unpack_from_slice]
      rw [if_pos (by simp only [List.length_cons] at h; omega)]
      exact ⟨_, rfl⟩
  · intro c output h
    simp only [SwapCurve.pack_into_slice]
    rw [if_pos h]
    exact ⟨_, rfl⟩
  · intro input h
    simp only [SwapCurve.unpack_unchecked]
    rw [if_neg (by simpa [SwapCurve.LEN] using h)]
  · intro input r h1 h2
    simp only [SwapCurve.unpack_unchecked]
    rw [if_pos (by simpa [SwapCurve.LEN] using h2), h1]

/-- Witness for C9 at concrete slices. -/
theorem c9_fixed_window_panic_model_witness :
    SwapCurve.unpack_from_slice [1, 2, 3] = none ∧
    stableSwapCurveOne.pack_into_slice [0, 0, 0] = none ∧
    (∃ r, SwapCurve.unpack_from_slice (2 :: List.replicate 33 0) = some r) ∧
    (∃ bs, stableSwapCurveOne.pack_into_slice (List.replicate 40 0) = some bs) ∧
    SwapCurve.unpack_unchecked [2] = .error .invalidAccountData ∧
    SwapCurve.unpack_unchecked (0 :: List.replicate 32 0) = .error .invalidAccountData :=
  ⟨c9_fixed_window_panic_model.1 [1, 2, 3] (by decide),
    c9_fixed_window_panic_model.2.1 stableSwapCurveOne [0, 0, 0] (by decide),
    c9_fixed_window_panic_model.2.2.1 (2 :: List.replicate 33 0) (by decide),
    c9_fixed_window_panic_model.2.2.2.1 stableSwapCurveOne (List.replicate 40 0) (by decide),
    c9_fixed_window_panic_model.2.2.2.2.1 [2] (by decide),
    c9_fixed_window_panic_model.2.2.2.2.2 (0 :: List.replicate 32 0)
      (.error .invalidAccountData) rfl (by decide)⟩

/-- Claim C10: dispatch.  `Processor::process_with_constraints` returns
exactly the result of `SwapInstruction::unpack` with the decoded value
replaced by unit: it fails if and only if unpack fails, with the same error;
every decoded instruction is routed to the handler matching its variant, and
each of the four handlers returns success unconditionally, so dispatch adds
no validation of its own. -/
theorem c10_process_dispatch :
    (∀ input, Processor.process_with_constraints input =
      (SwapInstruction.unpack input).map (fun _ => ())) ∧
    (∀ fees swap_curve, Processor.process_initialize fees swap_curve = .ok ()) ∧
    (∀ a b, Processor.process_swap a b = .ok ()) ∧
    (∀ a b c, Processor.process_deposit_all_token_types a b c = .ok ()) ∧
    (∀ a b c, Processor.process_withdraw_all_token_types a b c = .ok ()) ∧
    (∀ input i, SwapInstruction.unpack input = .ok i →
      Processor.process_with_constraints input = .ok ()) ∧
    (∀ input e, SwapInstruction.unpack input = .error e →
      Processor.process_with_constraints input = .error e) := by
  have hmap : ∀ input, Processor.process_with_constraints input =
      (SwapInstruction.unpack input).map (fun _ => ()) := by
    intro input
    simp only [Processor.process_with_constraints]
    rcases h : SwapInstruction.unpack input with e | i
    · rfl
    · cases i <;> rfl
  refine ⟨hmap, fun _ _ => rfl, fun _ _ => rfl, fun _ _ _ => rfl, fun _ _ _ => rfl, ?_, ?_⟩
  · intro input i h
    rw [hmap input, h]
    rfl
  · intro input e h
    rw [hmap input, h]
    rfl

/-- Witness for C10 at concrete inputs: a decodable Swap buffer dispatches to
success, an empty buffer propagates the unpack error. -/
theorem c10_process_dispatch_witness :
    Processor.process_with_constraints (1 :: List.replicate 16 0) = .ok () ∧
    Processor.process_with_constraints [] = .error .invalidInstruction :=
  ⟨c10_process_dispatch.2.2.2.2.2.1 (1 :: List.replicate 16 0) (.Swap 0 0) rfl,
    c10_process_dispatch.2.2.2.2.2.2 [] .invalidInstruction rfl⟩
